import Mathlib

/-!
# Authorization handlers of Kinopoisk_back-end

A shallow embedding of `src/Authorization/authorization.go`: the five HTTP
handlers `GetBasicInfo`, `Register`, `Login`, `Logout` and `CheckAuth`.

* The `http.ResponseWriter` is a record of what the handler did to it: the
  status line fixed by the first `WriteHeader` and the chunks handed to `Write`.
* The packages `codex/DB` and `codex/sessions`, `bcrypt` and `encoding/json`
  are not part of the source file.  Their functions are the fields of `Env`,
  acting on an abstract repository state `δ` and session state `ς`; each
  handler is a function of them.
* Each handler returns the writer, the new repository/session state and the
  list of collaborator calls it made, in order.
-/

namespace Authorization

/-! ## Data model -/

/-- A Go `error` value: an identity (Go compares error values by identity, as
in `err == sessions.ErrUserNotLoggedIn`) and the text `err.Error()` yields. -/
structure GoError where
  ident : Nat
  text : String
  deriving DecidableEq, Repr

/-- Modelled from the spec: the struct `DB.User` is declared in package
`codex/DB`, which is not under src. The fields are those the handlers read
(`ID`, `Email`, `Username`, `Password`, `RepeatPassword`); spec section 3
describes the identity record and section 4.3 the registration form. -/
structure User where
  ID : Nat
  Email : String
  Username : String
  Password : String
  RepeatPassword : String
  deriving DecidableEq, Repr

/-- The struct `userToLogin` (source lines 13-16). -/
structure userToLogin where
  Email : String
  Password : String
  deriving DecidableEq, Repr

/-- The composite literal `DB.User{ID: userID}` of `CheckAuth` (line 160): every
other field has its zero value. -/
def User.ofID (userID : Nat) : User :=
  { ID := userID, Email := "", Username := "", Password := "", RepeatPassword := "" }

def errorBadInput : String := "error - bad input"
def errorAlreadyIn : String := "error - already in"
def errorBadCredentials : String := "error - bad credentials"
def errorInternalServer : String := "Internal server error"

def StatusOK : Nat := 200
def StatusCreated : Nat := 201
def StatusBadRequest : Nat := 400
def StatusUnauthorized : Nat := 401
def StatusForbidden : Nat := 403
def StatusNotFound : Nat := 404
def StatusConflict : Nat := 409
def StatusInternalServerError : Nat := 500

/-! ## The request and the response writer -/

/-- What a handler reads from `*http.Request`.
* `vars` is `mux.Vars(r)`.
* `userForm` is what `json.NewDecoder(r.Body).Decode` yields for a `DB.User`
  target, `none` when it returns an error; `loginForm` likewise for
  `userToLogin`.  A body that is the JSON literal `null`, which leaves the form
  pointer nil, is not represented.
* `cookie` stands for whatever the session package reads from the request. -/
structure Request where
  vars : List (String × String)
  userForm : Option User
  loginForm : Option userToLogin
  cookie : String
  deriving DecidableEq, Repr

/-- Indexing a Go `map[string]string`: the zero value `""` for a missing key. -/
def Request.Vars (r : Request) (key : String) : String :=
  match r.vars.find? (fun kv => kv.1 == key) with
  | some kv => kv.2
  | none => ""

/-- The `http.ResponseWriter`: `code` is the status line once it has been
written, `writes` the chunks handed to `Write` in order, and `writeErr` the
error every `Write` on this connection returns (`none`: the write succeeds). -/
structure ResponseWriter where
  code : Option Nat
  writes : List String
  writeErr : Option GoError
  deriving DecidableEq, Repr

/-- The writer a handler is called with on a healthy connection. -/
def ResponseWriter.fresh : ResponseWriter :=
  { code := none, writes := [], writeErr := none }

/-- The method `WriteHeader`: only the first call fixes the status. -/
def ResponseWriter.WriteHeader (w : ResponseWriter) (statusCode : Nat) : ResponseWriter :=
  match w.code with
  | some _ => w
  | none => { w with code := some statusCode }

/-- The method `Write`: an implicit `WriteHeader(200)` when no status has been
written, then the chunk; the result is the writer and the returned error. -/
def ResponseWriter.Write (w : ResponseWriter) (b : String) : ResponseWriter × Option GoError :=
  ({ (w.WriteHeader StatusOK) with writes := w.writes ++ [b] }, w.writeErr)

/-- The response body: all chunks written, concatenated. -/
def ResponseWriter.body (w : ResponseWriter) : String :=
  String.join w.writes

/-- The function `http.Error(w, error, code)`: `WriteHeader(code)` followed by
`fmt.Fprintln(w, error)`, whose result is dropped. -/
def httpError (w : ResponseWriter) (error : String) (code : Nat) : ResponseWriter :=
  ((w.WriteHeader code).Write (error ++ "\n")).1

/-- The function `strconv.ParseUint(s, 10, 64)`: a non-empty string of decimal
digits whose value fits 64 bits; `none` stands for a returned error. -/
def ParseUint (s : String) : Option Nat :=
  if s.toList = [] then none
  else if s.toList.all Char.isDigit then
    let n := s.toList.foldl (fun acc c => acc * 10 + (c.toNat - 48)) 0
    if n < 2 ^ 64 then some n else none
  else none

/-! ## Collaborators -/

/-- The functions the handlers call outside the source file.  A Go result
`(value, err)` is a pair whose second component is `none` for `err == nil`.
The lookups return a `DB.User` value also when they fail: `Login` reads
`user.Password` (line 108) before it tests `err`.  The lookups and
`CheckSession` read the state and do not change it.  `AddUser` receives the
form by pointer: it returns the new repository state, the form as it leaves it,
and the id it returns.  `OmitPassword` is the method of `DB.User`, `Marshal` is
`json.Marshal` on a `DB.User`, whose encoding depends on the struct tags. -/
structure Env (δ ς : Type) where
  FindId : δ → Nat → User × Option GoError
  FindEmail : δ → String → User × Option GoError
  FindUsername : δ → String → User × Option GoError
  AddUser : δ → User → δ × User × Nat
  OmitPassword : User → User
  CheckSession : ς → Request → Nat × Option GoError
  StartSession : ς → Request → Nat → ς × Option GoError
  EndSession : ς → Request → Nat → ς × Option GoError
  ErrUserNotLoggedIn : GoError
  CompareHashAndPassword : String → String → Option GoError
  Marshal : User → String × Option GoError

/-- A collaborator call, as recorded in a handler's trace. -/
inductive Call where
  | FindId (id : Nat)
  | FindEmail (email : String)
  | FindUsername (username : String)
  | AddUser (form : User)
  | CheckSession
  | StartSession (id : Nat)
  | EndSession (id : Nat)
  deriving DecidableEq, Repr

/-- The state the handlers share: the package variable `db` and the session
store (together with the client's session token). -/
structure World (δ ς : Type) where
  db : δ
  sessions : ς

/-- What a handler leaves behind: the writer, the state, and the calls made. -/
structure Result (δ ς : Type) where
  w : ResponseWriter
  world : World δ ς
  calls : List Call

/-! ## The handlers -/

/-- The handler `GetBasicInfo` (source lines 26-51). -/
def GetBasicInfo {δ ς : Type} (E : Env δ ς) (w : ResponseWriter) (r : Request) (s : World δ ς) :
    Result δ ς :=
  match ParseUint (r.Vars "id") with
  | none => ⟨httpError w errorBadInput StatusBadRequest, s, []⟩
  | some u64 =>
    let found := E.FindId s.db u64
    match found.2 with
    | some _ => ⟨httpError w errorBadInput StatusNotFound, s, [Call.FindId u64]⟩
    | none =>
      let user := E.OmitPassword found.1
      let m := E.Marshal user
      match m.2 with
      | some _ =>
        ⟨httpError w errorInternalServer StatusInternalServerError, s, [Call.FindId u64]⟩
      | none =>
        let wr := (w.WriteHeader StatusOK).Write m.1
        match wr.2 with
        | some _ =>
          ⟨httpError wr.1 errorInternalServer StatusInternalServerError, s, [Call.FindId u64]⟩
        | none => ⟨wr.1, s, [Call.FindId u64]⟩

/-- The handler `Register` (source lines 53-93). -/
def Register {δ ς : Type} (E : Env δ ς) (w : ResponseWriter) (r : Request) (s : World δ ς) :
    Result δ ς :=
  match r.userForm with
  | none => ⟨httpError w errorBadInput StatusBadRequest, s, []⟩
  | some userForm =>
    if userForm.Email = "" ∨ userForm.Username = "" ∨ userForm.Password = ""
        ∨ userForm.RepeatPassword = "" then
      ⟨httpError w errorBadInput StatusBadRequest, s, []⟩
    else
      match (E.FindEmail s.db userForm.Email).2 with
      | none => ⟨httpError w errorAlreadyIn StatusConflict, s, [Call.FindEmail userForm.Email]⟩
      | some _ =>
        match (E.FindUsername s.db userForm.Username).2 with
        | none =>
          ⟨httpError w errorAlreadyIn StatusConflict, s,
            [Call.FindEmail userForm.Email, Call.FindUsername userForm.Username]⟩
        | some _ =>
          let added := E.AddUser s.db userForm
          let form := added.2.1
          let idReg := added.2.2
          let started := E.StartSession s.sessions r form.ID
          let s1 : World δ ς := { db := added.1, sessions := started.1 }
          let calls := [Call.FindEmail userForm.Email, Call.FindUsername userForm.Username,
            Call.AddUser userForm, Call.StartSession form.ID]
          if started.2 ≠ none ∧ idReg ≠ 0 then
            ⟨httpError w errorInternalServer StatusInternalServerError, s1, calls⟩
          else
            let m := E.Marshal (E.OmitPassword form)
            match m.2 with
            | some _ => ⟨httpError w errorInternalServer StatusInternalServerError, s1, calls⟩
            | none => ⟨((w.WriteHeader StatusCreated).Write m.1).1, s1, calls⟩

/-- The handler `Login` (source lines 95-133). -/
def Login {δ ς : Type} (E : Env δ ς) (w : ResponseWriter) (r : Request) (s : World δ ς) :
    Result δ ς :=
  match r.loginForm with
  | none => ⟨httpError w errorBadInput StatusBadRequest, s, []⟩
  | some userForm =>
    if userForm.Email = "" ∨ userForm.Password = "" then
      ⟨httpError w errorBadInput StatusBadRequest, s, []⟩
    else
      let found := E.FindEmail s.db userForm.Email
      let errPassword := E.CompareHashAndPassword found.1.Password userForm.Password
      if found.2 ≠ none ∨ errPassword ≠ none then
        ⟨httpError w errorBadCredentials StatusUnauthorized, s, [Call.FindEmail userForm.Email]⟩
      else
        if (E.CheckSession s.sessions r).2 ≠ some E.ErrUserNotLoggedIn then
          ⟨httpError w errorAlreadyIn StatusBadRequest, s,
            [Call.FindEmail userForm.Email, Call.CheckSession]⟩
        else
          let user := E.OmitPassword found.1
          let m := E.Marshal user
          match m.2 with
          | some _ =>
            ⟨httpError w errorInternalServer StatusInternalServerError, s,
              [Call.FindEmail userForm.Email, Call.CheckSession]⟩
          | none =>
            let started := E.StartSession s.sessions r user.ID
            let s1 : World δ ς := { db := s.db, sessions := started.1 }
            let calls := [Call.FindEmail userForm.Email, Call.CheckSession,
              Call.StartSession user.ID]
            match started.2 with
            | some _ => ⟨httpError w errorInternalServer StatusInternalServerError, s1, calls⟩
            | none => ⟨((w.WriteHeader StatusOK).Write m.1).1, s1, calls⟩

/-- The handler `Logout` (source lines 135-147). -/
def Logout {δ ς : Type} (E : Env δ ς) (w : ResponseWriter) (r : Request) (s : World δ ς) :
    Result δ ς :=
  let checked := E.CheckSession s.sessions r
  if checked.2 = some E.ErrUserNotLoggedIn then
    ⟨httpError w errorBadInput StatusForbidden, s, [Call.CheckSession]⟩
  else
    let ended := E.EndSession s.sessions r checked.1
    let s1 : World δ ς := { db := s.db, sessions := ended.1 }
    match ended.2 with
    | some _ =>
      ⟨httpError w errorInternalServer StatusInternalServerError, s1,
        [Call.CheckSession, Call.EndSession checked.1]⟩
    | none => ⟨w.WriteHeader StatusOK, s1, [Call.CheckSession, Call.EndSession checked.1]⟩

/-- The handler `CheckAuth` (source lines 149-168). -/
def CheckAuth {δ ς : Type} (E : Env δ ς) (w : ResponseWriter) (r : Request) (s : World δ ς) :
    Result δ ς :=
  let checked := E.CheckSession s.sessions r
  if checked.2 = some E.ErrUserNotLoggedIn then
    ⟨httpError w errorBadInput StatusBadRequest, s, [Call.CheckSession]⟩
  else
    match checked.2 with
    | some err => ⟨httpError w err.text StatusInternalServerError, s, [Call.CheckSession]⟩
    | none =>
      let m := E.Marshal (User.ofID checked.1)
      match m.2 with
      | some _ =>
        ⟨httpError w errorInternalServer StatusInternalServerError, s, [Call.CheckSession]⟩
      | none => ⟨((w.WriteHeader StatusOK).Write m.1).1, s, [Call.CheckSession]⟩

/-! ## An in-memory instance of the collaborators -/

def mockNotLoggedIn : GoError := ⟨1, "user not logged in"⟩
def mockNotFound : GoError := ⟨2, "user not found"⟩
def mockMismatch : GoError := ⟨3, "hashedPassword is not the hash of the given password"⟩
def mockStoreDown : GoError := ⟨4, "dial tcp 127.0.0.1:6379: connect: connection refused"⟩

/-- A lookup in a list of users: the first match, or the zero user and an error. -/
def mockFind (db : List User) (p : User → Bool) : User × Option GoError :=
  match db.find? p with
  | some u => (u, none)
  | none => (User.ofID 0, some mockNotFound)

/-- An in-memory repository (a list of users, ids counted from 1, passwords
stored behind a marker standing for the hash) and a one-client session store
(the id the client's token resolves to, if any). -/
def mockEnv : Env (List User) (Option Nat) where
  FindId db id := mockFind db (fun u => u.ID == id)
  FindEmail db email := mockFind db (fun u => u.Email == email)
  FindUsername db username := mockFind db (fun u => u.Username == username)
  AddUser db form :=
    let u : User := { form with ID := db.length + 1, Password := "hash:" ++ form.Password }
    (db ++ [u], u, db.length + 1)
  OmitPassword u := { u with Password := "", RepeatPassword := "" }
  CheckSession σ _ :=
    match σ with
    | some id => (id, none)
    | none => (0, some mockNotLoggedIn)
  StartSession _ _ id := (some id, none)
  EndSession _ _ _ := (none, none)
  ErrUserNotLoggedIn := mockNotLoggedIn
  CompareHashAndPassword hash password :=
    if hash = "hash:" ++ password then none else some mockMismatch
  Marshal u := (String.intercalate ";" [Nat.repr u.ID, u.Email, u.Username, u.Password], none)

/-- The stored record of the user alice, password `p1`. -/
def alice : User :=
  { ID := 1, Email := "a@x.com", Username := "alice", Password := "hash:p1", RepeatPassword := "" }

/-- A request that carries only a login form. -/
def loginRequest (email password : String) : Request :=
  { vars := [], userForm := none, loginForm := some ⟨email, password⟩, cookie := "" }

/-- A request that carries only a registration form. -/
def registerRequest (form : User) : Request :=
  { vars := [], userForm := some form, loginForm := none, cookie := "" }

/-- A request with no body, as sent to `Logout` and `CheckAuth`. -/
def plainRequest : Request :=
  { vars := [], userForm := none, loginForm := none, cookie := "" }

/-- The in-memory instance with ids counted from 0 and a session store that
cannot be reached. -/
def zeroBasedDownEnv : Env (List User) (Option Nat) :=
  { mockEnv with
    AddUser := fun db form =>
      ((db ++ [{ form with ID := db.length, Password := "hash:" ++ form.Password }]),
        { form with ID := db.length, Password := "hash:" ++ form.Password }, db.length)
    StartSession := fun σ _ _ => (σ, some mockStoreDown) }

/-- The in-memory instance with a session store that cannot be reached. -/
def downEnv : Env (List User) (Option Nat) :=
  { mockEnv with StartSession := fun σ _ _ => (σ, some mockStoreDown) }

/-- The in-memory instance whose `AddUser` stores the record under a new id and
returns that id, but leaves the caller's form as it was decoded. -/
def detachedIdEnv : Env (List User) (Option Nat) :=
  { mockEnv with
    AddUser := fun db form =>
      ((db ++ [{ form with ID := db.length + 1, Password := "hash:" ++ form.Password }]),
        form, db.length + 1) }

/-- The bodies `http.Error` writes for the four fixed messages. -/
def fixedLines : List String :=
  [errorBadInput ++ "\n", errorAlreadyIn ++ "\n", errorBadCredentials ++ "\n",
    errorInternalServer ++ "\n"]

/-- A request for the path variable `id`. -/
def idRequest (id : String) : Request :=
  { vars := [("id", id)], userForm := none, loginForm := none, cookie := "" }

/-- The in-memory instance with a session lookup that cannot reach its store. -/
def lookupDownEnv : Env (List User) (Option Nat) :=
  { mockEnv with CheckSession := fun _ _ => (0, some mockStoreDown) }

/-- A second failure of the session lookup, with another text. -/
def mockTimeout : GoError := ⟨5, "redis: connection pool timeout"⟩

/-- The in-memory instance whose session lookup times out. -/
def lookupTimeoutEnv : Env (List User) (Option Nat) :=
  { mockEnv with CheckSession := fun _ _ => (0, some mockTimeout) }

/-! ## Login: bad credentials -/

/-- A single run of `Login` whose lookup or password check fails: the response
is the fixed 401, nothing changes, and the only call is the lookup. -/
theorem Login_of_bad_credentials {δ ς : Type} (E : Env δ ς) (w : ResponseWriter) (r : Request)
    (s : World δ ς) (f : userToLogin) (hr : r.loginForm = some f)
    (he : f.Email ≠ "") (hp : f.Password ≠ "")
    (hbad : (E.FindEmail s.db f.Email).2 ≠ none ∨
      E.CompareHashAndPassword (E.FindEmail s.db f.Email).1.Password f.Password ≠ none) :
    (Login E w r s).w = httpError w errorBadCredentials StatusUnauthorized ∧
    (Login E w r s).world = s ∧
    (Login E w r s).calls = [Call.FindEmail f.Email] := by
  simp only [Login, hr]
  rw [if_neg (by simp [he, hp]), if_pos hbad]
  exact ⟨rfl, rfl, rfl⟩

/-- C1: a Login with non-empty email and password whose lookup by email fails
and a Login whose lookup succeeds but whose password check fails both get the
BadCredentials response (401, `error - bad credentials`), the two responses are
equal, and in neither run is a session started: the state is unchanged and the
only collaborator call is the lookup by email. -/
theorem Login_bad_credentials_indistinguishable {δ ς : Type} (E : Env δ ς) (w : ResponseWriter)
    (r₁ r₂ : Request) (s₁ s₂ : World δ ς) (f₁ f₂ : userToLogin)
    (hr₁ : r₁.loginForm = some f₁) (hr₂ : r₂.loginForm = some f₂)
    (he₁ : f₁.Email ≠ "") (hp₁ : f₁.Password ≠ "")
    (he₂ : f₂.Email ≠ "") (hp₂ : f₂.Password ≠ "")
    (hlookup : (E.FindEmail s₁.db f₁.Email).2 ≠ none)
    (_hfound : (E.FindEmail s₂.db f₂.Email).2 = none)
    (hverify : E.CompareHashAndPassword (E.FindEmail s₂.db f₂.Email).1.Password f₂.Password
      ≠ none) :
    (Login E w r₁ s₁).w = httpError w errorBadCredentials StatusUnauthorized ∧
    (Login E w r₂ s₂).w = httpError w errorBadCredentials StatusUnauthorized ∧
    (Login E w r₁ s₁).w = (Login E w r₂ s₂).w ∧
    (Login E w r₁ s₁).world = s₁ ∧ (Login E w r₂ s₂).world = s₂ ∧
    (Login E w r₁ s₁).calls = [Call.FindEmail f₁.Email] ∧
    (Login E w r₂ s₂).calls = [Call.FindEmail f₂.Email] := by
  have h₁ := Login_of_bad_credentials E w r₁ s₁ f₁ hr₁ he₁ hp₁ (Or.inl hlookup)
  have h₂ := Login_of_bad_credentials E w r₂ s₂ f₂ hr₂ he₂ hp₂ (Or.inr hverify)
  exact ⟨h₁.1, h₂.1, h₁.1.trans h₂.1.symm, h₁.2.1, h₂.2.1, h₁.2.2, h₂.2.2⟩

/-- Witness of C1: an unknown email against a wrong password for alice. -/
theorem Login_bad_credentials_indistinguishable_witness :
    (Login mockEnv ResponseWriter.fresh (loginRequest "b@x.com" "p1") ⟨[alice], none⟩).w
      = httpError ResponseWriter.fresh errorBadCredentials StatusUnauthorized ∧
    (Login mockEnv ResponseWriter.fresh (loginRequest "a@x.com" "wrong") ⟨[alice], none⟩).w
      = httpError ResponseWriter.fresh errorBadCredentials StatusUnauthorized ∧
    (Login mockEnv ResponseWriter.fresh (loginRequest "b@x.com" "p1") ⟨[alice], none⟩).w
      = (Login mockEnv ResponseWriter.fresh (loginRequest "a@x.com" "wrong") ⟨[alice], none⟩).w ∧
    (Login mockEnv ResponseWriter.fresh (loginRequest "b@x.com" "p1") ⟨[alice], none⟩).world
      = ⟨[alice], none⟩ ∧
    (Login mockEnv ResponseWriter.fresh (loginRequest "a@x.com" "wrong") ⟨[alice], none⟩).world
      = ⟨[alice], none⟩ ∧
    (Login mockEnv ResponseWriter.fresh (loginRequest "b@x.com" "p1") ⟨[alice], none⟩).calls
      = [Call.FindEmail "b@x.com"] ∧
    (Login mockEnv ResponseWriter.fresh (loginRequest "a@x.com" "wrong") ⟨[alice], none⟩).calls
      = [Call.FindEmail "a@x.com"] :=
  Login_bad_credentials_indistinguishable mockEnv ResponseWriter.fresh
    (loginRequest "b@x.com" "p1") (loginRequest "a@x.com" "wrong")
    ⟨[alice], none⟩ ⟨[alice], none⟩ ⟨"b@x.com", "p1"⟩ ⟨"a@x.com", "wrong"⟩
    rfl rfl (by decide) (by decide) (by decide) (by decide) (by decide) (by decide) (by decide)

/-! ## Login: an existing session -/

/-- Counterexample to C2 as stated: alice's client holds a valid session for
id 1 and submits a wrong password; the response is BadCredentials (401), not
AlreadyAuthenticated, and the session lookup is never reached. -/
theorem Login_valid_session_wrong_password :
    (mockEnv.CheckSession (some 1) (loginRequest "a@x.com" "wrong")).2 = none ∧
    (Login mockEnv ResponseWriter.fresh (loginRequest "a@x.com" "wrong") ⟨[alice], some 1⟩).w
      = httpError ResponseWriter.fresh errorBadCredentials StatusUnauthorized ∧
    (Login mockEnv ResponseWriter.fresh (loginRequest "a@x.com" "wrong") ⟨[alice], some 1⟩).w
      ≠ httpError ResponseWriter.fresh errorAlreadyIn StatusBadRequest ∧
    (Login mockEnv ResponseWriter.fresh (loginRequest "a@x.com" "wrong") ⟨[alice], some 1⟩).calls
      = [Call.FindEmail "a@x.com"] := by
  decide

/-- C2 (amended): when the session lookup reports a valid existing session,
Login never calls StartSession and leaves the state unchanged, whatever is
submitted.  The answer then depends on what is submitted: a decoded form with
an empty email or password gets BadInput (400, `error - bad input`) with no
call made; a form with both non-empty whose lookup by email fails or whose
password check fails gets BadCredentials (401, `error - bad credentials`), the
session lookup not being reached; and a form with both non-empty whose lookup
succeeds and whose password check passes gets AlreadyAuthenticated (400,
`error - already in`). -/
theorem Login_existing_session {δ ς : Type} (E : Env δ ς) (w : ResponseWriter) (r : Request)
    (s : World δ ς) (hsess : (E.CheckSession s.sessions r).2 = none) :
    (∀ id, Call.StartSession id ∉ (Login E w r s).calls) ∧
    (Login E w r s).world = s ∧
    (∀ f, r.loginForm = some f → (f.Email = "" ∨ f.Password = "") →
      (Login E w r s).w = httpError w errorBadInput StatusBadRequest ∧
      (Login E w r s).calls = []) ∧
    (∀ f, r.loginForm = some f → f.Email ≠ "" → f.Password ≠ "" →
      ((E.FindEmail s.db f.Email).2 ≠ none ∨
        E.CompareHashAndPassword (E.FindEmail s.db f.Email).1.Password f.Password ≠ none) →
      (Login E w r s).w = httpError w errorBadCredentials StatusUnauthorized ∧
      (Login E w r s).calls = [Call.FindEmail f.Email]) ∧
    (∀ f, r.loginForm = some f → f.Email ≠ "" → f.Password ≠ "" →
      (E.FindEmail s.db f.Email).2 = none →
      E.CompareHashAndPassword (E.FindEmail s.db f.Email).1.Password f.Password = none →
      (Login E w r s).w = httpError w errorAlreadyIn StatusBadRequest ∧
      (Login E w r s).calls = [Call.FindEmail f.Email, Call.CheckSession]) := by
  have hne : (E.CheckSession s.sessions r).2 ≠ some E.ErrUserNotLoggedIn := by
    rw [hsess]; exact fun h => Option.noConfusion h
  refine ⟨?_, ?_, ?_, ?_, ?_⟩
  · intro id
    simp only [Login]
    split
    · simp
    · split
      · simp
      · split
        · simp
        · simp
  · simp only [Login]
    split
    · rfl
    · split
      · rfl
      · split
        · rfl
        · rfl
  · intro f hr hempty
    simp only [Login, hr]
    rw [if_pos hempty]
    exact ⟨rfl, rfl⟩
  · intro f hr he hp hbad
    have h := Login_of_bad_credentials E w r s f hr he hp hbad
    exact ⟨h.1, h.2.2⟩
  · intro f hr he hp hfound hpass
    simp only [Login, hr]
    rw [if_neg (by simp [he, hp]), if_neg (by simp [hfound, hpass]), if_pos hne]
    exact ⟨rfl, rfl⟩

/-- Witness of C2 (amended): while her client already holds a session for
id 1, alice submits an empty password, then a wrong password, then the right
password. -/
theorem Login_existing_session_witness :
    ((∀ id, Call.StartSession id ∉
      (Login mockEnv ResponseWriter.fresh (loginRequest "a@x.com" "p1") ⟨[alice], some 1⟩).calls) ∧
    (Login mockEnv ResponseWriter.fresh (loginRequest "a@x.com" "p1") ⟨[alice], some 1⟩).world
      = ⟨[alice], some 1⟩) ∧
    ((Login mockEnv ResponseWriter.fresh (loginRequest "a@x.com" "") ⟨[alice], some 1⟩).w
      = httpError ResponseWriter.fresh errorBadInput StatusBadRequest ∧
    (Login mockEnv ResponseWriter.fresh (loginRequest "a@x.com" "") ⟨[alice], some 1⟩).calls
      = []) ∧
    ((Login mockEnv ResponseWriter.fresh (loginRequest "a@x.com" "wrong") ⟨[alice], some 1⟩).w
      = httpError ResponseWriter.fresh errorBadCredentials StatusUnauthorized ∧
    (Login mockEnv ResponseWriter.fresh (loginRequest "a@x.com" "wrong") ⟨[alice], some 1⟩).calls
      = [Call.FindEmail "a@x.com"]) ∧
    ((Login mockEnv ResponseWriter.fresh (loginRequest "a@x.com" "p1") ⟨[alice], some 1⟩).w
      = httpError ResponseWriter.fresh errorAlreadyIn StatusBadRequest ∧
    (Login mockEnv ResponseWriter.fresh (loginRequest "a@x.com" "p1") ⟨[alice], some 1⟩).calls
      = [Call.FindEmail "a@x.com", Call.CheckSession]) :=
  have h := Login_existing_session mockEnv ResponseWriter.fresh (loginRequest "a@x.com" "p1")
    ⟨[alice], some 1⟩ rfl
  ⟨⟨h.1, h.2.1⟩,
    (Login_existing_session mockEnv ResponseWriter.fresh (loginRequest "a@x.com" "")
      ⟨[alice], some 1⟩ rfl).2.2.1 ⟨"a@x.com", ""⟩ rfl (Or.inr rfl),
    (Login_existing_session mockEnv ResponseWriter.fresh (loginRequest "a@x.com" "wrong")
      ⟨[alice], some 1⟩ rfl).2.2.2.1 ⟨"a@x.com", "wrong"⟩ rfl (by decide) (by decide)
      (Or.inr (by decide)),
    h.2.2.2.2 ⟨"a@x.com", "p1"⟩ rfl (by decide) (by decide) (by decide) (by decide)⟩

/-! ## Register: validation and uniqueness -/

/-- C3: for a Register form with all four required fields non-empty, if the
repository finds a user with the same email, or finds a user with the same
username, Register fails with Conflict (409, `error - already in`); the
repository and the session store are unchanged, and neither AddUser nor
StartSession is among the calls made. -/
theorem Register_conflict {δ ς : Type} (E : Env δ ς) (w : ResponseWriter) (r : Request)
    (s : World δ ς) (form : User) (hr : r.userForm = some form)
    (he : form.Email ≠ "") (hu : form.Username ≠ "") (hp : form.Password ≠ "")
    (hrp : form.RepeatPassword ≠ "")
    (hdup : (E.FindEmail s.db form.Email).2 = none ∨
      (E.FindUsername s.db form.Username).2 = none) :
    (Register E w r s).w = httpError w errorAlreadyIn StatusConflict ∧
    (Register E w r s).world = s ∧
    (∀ u, Call.AddUser u ∉ (Register E w r s).calls) ∧
    (∀ id, Call.StartSession id ∉ (Register E w r s).calls) := by
  simp only [Register, hr]
  rw [if_neg (by simp [he, hu, hp, hrp])]
  split
  · simp
  · split
    · simp
    · rename_i h1 _ _ h2
      rcases hdup with h | h
      · rw [h] at h1; exact Option.noConfusion h1
      · rw [h] at h2; exact Option.noConfusion h2

/-- Witness of C3: registering again with alice's email. -/
theorem Register_conflict_witness :
    (Register mockEnv ResponseWriter.fresh
        (registerRequest ⟨0, "a@x.com", "alice2", "p2", "p2"⟩) ⟨[alice], none⟩).w
      = httpError ResponseWriter.fresh errorAlreadyIn StatusConflict ∧
    (Register mockEnv ResponseWriter.fresh
        (registerRequest ⟨0, "a@x.com", "alice2", "p2", "p2"⟩) ⟨[alice], none⟩).world
      = ⟨[alice], none⟩ ∧
    (∀ u, Call.AddUser u ∉ (Register mockEnv ResponseWriter.fresh
        (registerRequest ⟨0, "a@x.com", "alice2", "p2", "p2"⟩) ⟨[alice], none⟩).calls) ∧
    (∀ id, Call.StartSession id ∉ (Register mockEnv ResponseWriter.fresh
        (registerRequest ⟨0, "a@x.com", "alice2", "p2", "p2"⟩) ⟨[alice], none⟩).calls) :=
  Register_conflict mockEnv ResponseWriter.fresh
    (registerRequest ⟨0, "a@x.com", "alice2", "p2", "p2"⟩) ⟨[alice], none⟩
    ⟨0, "a@x.com", "alice2", "p2", "p2"⟩ rfl (by decide) (by decide) (by decide) (by decide)
    (Or.inl (by decide))

/-- The status an `http.Error` leaves on a writer with no status written. -/
theorem httpError_code (w : ResponseWriter) (msg : String) (c : Nat) (hw : w.code = none) :
    (httpError w msg c).code = some c := by
  simp [httpError, ResponseWriter.Write, ResponseWriter.WriteHeader, hw]

/-- The status after `WriteHeader(c)` and a `Write` on a writer with no status
written. -/
theorem WriteHeader_Write_code (w : ResponseWriter) (b : String) (c : Nat)
    (hw : w.code = none) : ((w.WriteHeader c).Write b).1.code = some c := by
  simp [ResponseWriter.Write, ResponseWriter.WriteHeader, hw]

/-- C4: a decoded Register form with an empty email, username, password or
repeatPassword is rejected with BadInput (400, `error - bad input`) with the
state unchanged and no collaborator call made (no lookup, insert or session
start); conversely a form with all four fields non-empty never gets status 400
on a writer with no status written, whether or not password and repeatPassword
are equal: the handler goes on to the lookup by email. -/
theorem Register_bad_input_iff_empty_field {δ ς : Type} (E : Env δ ς)
    (w : ResponseWriter) (r : Request)
    (s : World δ ς) (form : User) (hr : r.userForm = some form) :
    ((form.Email = "" ∨ form.Username = "" ∨ form.Password = "" ∨ form.RepeatPassword = "") →
      (Register E w r s).w = httpError w errorBadInput StatusBadRequest ∧
      (Register E w r s).world = s ∧ (Register E w r s).calls = []) ∧
    (form.Email ≠ "" → form.Username ≠ "" → form.Password ≠ "" → form.RepeatPassword ≠ "" →
      (Register E w r s).calls.head? = some (Call.FindEmail form.Email) ∧
      (w.code = none → (Register E w r s).w.code ≠ some StatusBadRequest)) := by
  constructor
  · intro hempty
    simp only [Register, hr]
    rw [if_pos hempty]
    exact ⟨rfl, rfl, rfl⟩
  · intro he hu hp hrp
    simp only [Register, hr]
    rw [if_neg (by simp [he, hu, hp, hrp])]
    constructor
    · split
      · rfl
      · split
        · rfl
        · split
          · rfl
          · split <;> rfl
    · intro hw
      split
      · rw [httpError_code w _ _ hw]; decide
      · split
        · rw [httpError_code w _ _ hw]; decide
        · split
          · rw [httpError_code w _ _ hw]; decide
          · split
            · rw [httpError_code w _ _ hw]; decide
            · rw [WriteHeader_Write_code w _ _ hw]; decide

/-- Witness of C4: a form without username is rejected; a complete form whose
password and repeatPassword differ is not. -/
theorem Register_bad_input_iff_empty_field_witness :
    ((Register mockEnv ResponseWriter.fresh
        (registerRequest ⟨0, "b@x.com", "", "p2", "p2"⟩) ⟨[alice], none⟩).w
      = httpError ResponseWriter.fresh errorBadInput StatusBadRequest ∧
    (Register mockEnv ResponseWriter.fresh
        (registerRequest ⟨0, "b@x.com", "", "p2", "p2"⟩) ⟨[alice], none⟩).world
      = ⟨[alice], none⟩ ∧
    (Register mockEnv ResponseWriter.fresh
        (registerRequest ⟨0, "b@x.com", "", "p2", "p2"⟩) ⟨[alice], none⟩).calls = []) ∧
    ((Register mockEnv ResponseWriter.fresh
        (registerRequest ⟨0, "b@x.com", "bob", "p2", "other"⟩) ⟨[alice], none⟩).calls.head?
      = some (Call.FindEmail "b@x.com") ∧
    (Register mockEnv ResponseWriter.fresh
        (registerRequest ⟨0, "b@x.com", "bob", "p2", "other"⟩) ⟨[alice], none⟩).w.code
      ≠ some StatusBadRequest) :=
  ⟨(Register_bad_input_iff_empty_field mockEnv ResponseWriter.fresh
      (registerRequest ⟨0, "b@x.com", "", "p2", "p2"⟩) ⟨[alice], none⟩
      ⟨0, "b@x.com", "", "p2", "p2"⟩ rfl).1 (Or.inr (Or.inl rfl)),
    ((Register_bad_input_iff_empty_field mockEnv ResponseWriter.fresh
      (registerRequest ⟨0, "b@x.com", "bob", "p2", "other"⟩) ⟨[alice], none⟩
      ⟨0, "b@x.com", "bob", "p2", "other"⟩ rfl).2
        (by decide) (by decide) (by decide) (by decide)).imp_right (fun h => h rfl)⟩

/-! ## Register: a failing session start -/

/-- Counterexample to C5 as stated: on an empty repository whose first id is 0
the registration passes validation and both uniqueness checks, the user is
inserted, starting the session fails, and the response is 201 Created. -/
theorem Register_session_failure_created :
    (zeroBasedDownEnv.FindEmail [] "a@x.com").2 ≠ none ∧
    (zeroBasedDownEnv.FindUsername [] "alice").2 ≠ none ∧
    (zeroBasedDownEnv.StartSession none (registerRequest ⟨0, "a@x.com", "alice", "p1", "p1"⟩)
      (zeroBasedDownEnv.AddUser [] ⟨0, "a@x.com", "alice", "p1", "p1"⟩).2.1.ID).2 ≠ none ∧
    (Register zeroBasedDownEnv ResponseWriter.fresh
      (registerRequest ⟨0, "a@x.com", "alice", "p1", "p1"⟩) ⟨[], none⟩).w.code
      = some StatusCreated ∧
    (Register zeroBasedDownEnv ResponseWriter.fresh
      (registerRequest ⟨0, "a@x.com", "alice", "p1", "p1"⟩) ⟨[], none⟩).w
      ≠ httpError ResponseWriter.fresh errorInternalServer StatusInternalServerError := by
  decide

/-- C5 (amended): for a Register call that passes validation and both
uniqueness checks and so inserts the user, if starting the session fails then
the repository is left as AddUser left it (the insert is not undone and no
further call follows the StartSession), and, when the id returned by AddUser is
not 0, the response is InternalError (500, `Internal server error`), never
201 Created. -/
theorem Register_session_failure {δ ς : Type} (E : Env δ ς) (w : ResponseWriter) (r : Request)
    (s : World δ ς) (form : User) (hr : r.userForm = some form)
    (he : form.Email ≠ "") (hu : form.Username ≠ "") (hp : form.Password ≠ "")
    (hrp : form.RepeatPassword ≠ "")
    (hemail : (E.FindEmail s.db form.Email).2 ≠ none)
    (huser : (E.FindUsername s.db form.Username).2 ≠ none)
    (hstart : (E.StartSession s.sessions r (E.AddUser s.db form).2.1.ID).2 ≠ none) :
    (Register E w r s).world.db = (E.AddUser s.db form).1 ∧
    (Register E w r s).calls = [Call.FindEmail form.Email, Call.FindUsername form.Username,
      Call.AddUser form, Call.StartSession (E.AddUser s.db form).2.1.ID] ∧
    ((E.AddUser s.db form).2.2 ≠ 0 →
      (Register E w r s).w = httpError w errorInternalServer StatusInternalServerError ∧
      (w.code = none → (Register E w r s).w.code = some StatusInternalServerError)) := by
  simp only [Register, hr]
  rw [if_neg (by simp [he, hu, hp, hrp])]
  split
  · rename_i h; exact absurd h hemail
  · split
    · rename_i h; exact absurd h huser
    · refine ⟨?_, ?_, ?_⟩
      · split
        · rfl
        · split <;> rfl
      · split
        · rfl
        · split <;> rfl
      · intro hid
        rw [if_pos ⟨hstart, hid⟩]
        exact ⟨rfl, fun hw => httpError_code w _ _ hw⟩

/-- Witness of C5 (amended): bob registers while the session store is down. -/
theorem Register_session_failure_witness :
    (Register downEnv ResponseWriter.fresh
      (registerRequest ⟨0, "b@x.com", "bob", "p2", "p2"⟩) ⟨[alice], none⟩).world.db
      = (downEnv.AddUser [alice] ⟨0, "b@x.com", "bob", "p2", "p2"⟩).1 ∧
    (Register downEnv ResponseWriter.fresh
      (registerRequest ⟨0, "b@x.com", "bob", "p2", "p2"⟩) ⟨[alice], none⟩).calls
      = [Call.FindEmail "b@x.com", Call.FindUsername "bob",
        Call.AddUser ⟨0, "b@x.com", "bob", "p2", "p2"⟩,
        Call.StartSession (downEnv.AddUser [alice] ⟨0, "b@x.com", "bob", "p2", "p2"⟩).2.1.ID] ∧
    (Register downEnv ResponseWriter.fresh
      (registerRequest ⟨0, "b@x.com", "bob", "p2", "p2"⟩) ⟨[alice], none⟩).w
      = httpError ResponseWriter.fresh errorInternalServer StatusInternalServerError ∧
    (Register downEnv ResponseWriter.fresh
      (registerRequest ⟨0, "b@x.com", "bob", "p2", "p2"⟩) ⟨[alice], none⟩).w.code
      = some StatusInternalServerError :=
  have h := Register_session_failure downEnv ResponseWriter.fresh
    (registerRequest ⟨0, "b@x.com", "bob", "p2", "p2"⟩) ⟨[alice], none⟩
    ⟨0, "b@x.com", "bob", "p2", "p2"⟩ rfl (by decide) (by decide) (by decide) (by decide)
    (by decide) (by decide) (by decide)
  ⟨h.1, h.2.1, (h.2.2 (by decide)).1, (h.2.2 (by decide)).2 rfl⟩

/-! ## The id a new session is bound to -/

/-- Counterexample to C6 as stated.  With a repository that does not write the
new id into the form, bob's registration succeeds (201), AddUser returns id 2,
and the session is started for the form's ID 0: the session lookup afterwards
yields 0, not 2.  And with ids counted from 0 and the session store down, the
registration of the first user succeeds (201) with no session at all: the
session lookup afterwards reports that the user is not logged in. -/
theorem Register_session_not_bound_to_returned_id :
    ((Register detachedIdEnv ResponseWriter.fresh
        (registerRequest ⟨0, "b@x.com", "bob", "p2", "p2"⟩) ⟨[alice], none⟩).w.code
      = some StatusCreated ∧
    (detachedIdEnv.AddUser [alice] ⟨0, "b@x.com", "bob", "p2", "p2"⟩).2.2 = 2 ∧
    (Register detachedIdEnv ResponseWriter.fresh
        (registerRequest ⟨0, "b@x.com", "bob", "p2", "p2"⟩) ⟨[alice], none⟩).calls
      = [Call.FindEmail "b@x.com", Call.FindUsername "bob",
        Call.AddUser ⟨0, "b@x.com", "bob", "p2", "p2"⟩, Call.StartSession 0] ∧
    detachedIdEnv.CheckSession
        (Register detachedIdEnv ResponseWriter.fresh
          (registerRequest ⟨0, "b@x.com", "bob", "p2", "p2"⟩) ⟨[alice], none⟩).world.sessions
        (registerRequest ⟨0, "b@x.com", "bob", "p2", "p2"⟩) = (0, none)) ∧
    ((Register zeroBasedDownEnv ResponseWriter.fresh
        (registerRequest ⟨0, "a@x.com", "alice", "p1", "p1"⟩) ⟨[], none⟩).w.code
      = some StatusCreated ∧
    zeroBasedDownEnv.CheckSession
        (Register zeroBasedDownEnv ResponseWriter.fresh
          (registerRequest ⟨0, "a@x.com", "alice", "p1", "p1"⟩) ⟨[], none⟩).world.sessions
        (registerRequest ⟨0, "a@x.com", "alice", "p1", "p1"⟩)
      = (0, some zeroBasedDownEnv.ErrUserNotLoggedIn)) := by
  decide

/-- A Register that answers 201 on a writer with no status written went through
the insert and the session start. -/
theorem Register_created_calls {δ ς : Type} (E : Env δ ς) (w : ResponseWriter) (r : Request)
    (s : World δ ς) (form : User) (hr : r.userForm = some form) (hw : w.code = none)
    (hok : (Register E w r s).w.code = some StatusCreated) :
    (Register E w r s).calls = [Call.FindEmail form.Email, Call.FindUsername form.Username,
      Call.AddUser form, Call.StartSession (E.AddUser s.db form).2.1.ID] ∧
    (Register E w r s).world = ⟨(E.AddUser s.db form).1,
      (E.StartSession s.sessions r (E.AddUser s.db form).2.1.ID).1⟩ := by
  simp only [Register, hr] at hok ⊢
  split at hok
  · rw [httpError_code w _ _ hw] at hok; exact absurd hok (by decide)
  · rename_i hne
    rw [if_neg hne]
    split at hok
    · rw [httpError_code w _ _ hw] at hok; exact absurd hok (by decide)
    · split at hok
      · rw [httpError_code w _ _ hw] at hok; exact absurd hok (by decide)
      · split
        · exact ⟨rfl, rfl⟩
        · split <;> exact ⟨rfl, rfl⟩

/-- A Login that answers 200 on a writer with no status written started a
session, and the session start did not fail. -/
theorem Login_ok_calls {δ ς : Type} (E : Env δ ς) (w : ResponseWriter) (r : Request)
    (s : World δ ς) (f : userToLogin) (hr : r.loginForm = some f) (hw : w.code = none)
    (hok : (Login E w r s).w.code = some StatusOK) :
    (E.StartSession s.sessions r (E.OmitPassword (E.FindEmail s.db f.Email).1).ID).2 = none ∧
    (Login E w r s).calls = [Call.FindEmail f.Email, Call.CheckSession,
      Call.StartSession (E.OmitPassword (E.FindEmail s.db f.Email).1).ID] ∧
    (Login E w r s).world = ⟨s.db,
      (E.StartSession s.sessions r (E.OmitPassword (E.FindEmail s.db f.Email).1).ID).1⟩ := by
  simp only [Login, hr] at hok ⊢
  split at hok
  · rw [httpError_code w _ _ hw] at hok; exact absurd hok (by decide)
  · rename_i hne
    rw [if_neg hne]
    split at hok
    · rw [httpError_code w _ _ hw] at hok; exact absurd hok (by decide)
    · rename_i hcred
      rw [if_neg hcred]
      split at hok
      · rw [httpError_code w _ _ hw] at hok; exact absurd hok (by decide)
      · rename_i hsess
        rw [if_neg hsess]
        split at hok
        · rw [httpError_code w _ _ hw] at hok; exact absurd hok (by decide)
        · rename_i hm
          split at hok
          · rw [httpError_code w _ _ hw] at hok; exact absurd hok (by decide)
          · rename_i hst
            simp only [hm, hst]
            exact ⟨trivial, trivial, trivial⟩

/-- A CheckAuth whose session lookup yields an id and whose payload can be
serialized answers 200 with the serialized `DB.User{ID: id}`. -/
theorem CheckAuth_of_session {δ ς : Type} (E : Env δ ς) (w : ResponseWriter) (r : Request)
    (s : World δ ς) (id : Nat) (hchk : E.CheckSession s.sessions r = (id, none))
    (hm : (E.Marshal (User.ofID id)).2 = none) :
    (CheckAuth E w r s).w = ((w.WriteHeader StatusOK).Write (E.Marshal (User.ofID id)).1).1 := by
  simp [CheckAuth, hchk, hm]

/-- C6 (amended): a Register that answers 201 and whose StartSession did not
fail started exactly one session, bound to the ID field of the form as AddUser
left it (`userForm.ID`, which is the id AddUser returned whenever AddUser
stores that id in the form); a Login that answers 200 started exactly one
session, bound to the id of the user found by email (OmitPassword keeping the
ID).  Hence, when the follow-up request `r'` presents the session started at
`r` and the store resolves a started session to the id it was started with,
the session lookup yields that id and CheckAuth answers with the serialized
`DB.User` carrying exactly that id. -/
theorem session_bound_to_user_id {δ ς : Type} (E : Env δ ς) (w w' : ResponseWriter) (r r' : Request)
    (s : World δ ς) (hw : w.code = none)
    (homit : ∀ u, (E.OmitPassword u).ID = u.ID)
    (hstore : ∀ σ id, (E.StartSession σ r id).2 = none →
      E.CheckSession (E.StartSession σ r id).1 r' = (id, none)) :
    (∀ form, r.userForm = some form →
      (Register E w r s).w.code = some StatusCreated →
      (E.StartSession s.sessions r (E.AddUser s.db form).2.1.ID).2 = none →
      (∀ id, Call.StartSession id ∈ (Register E w r s).calls ↔
        id = (E.AddUser s.db form).2.1.ID) ∧
      E.CheckSession (Register E w r s).world.sessions r'
        = ((E.AddUser s.db form).2.1.ID, none) ∧
      ((E.Marshal (User.ofID (E.AddUser s.db form).2.1.ID)).2 = none →
        (CheckAuth E w' r' (Register E w r s).world).w = ((w'.WriteHeader StatusOK).Write
          (E.Marshal (User.ofID (E.AddUser s.db form).2.1.ID)).1).1)) ∧
    (∀ f, r.loginForm = some f →
      (Login E w r s).w.code = some StatusOK →
      (∀ id, Call.StartSession id ∈ (Login E w r s).calls ↔
        id = (E.FindEmail s.db f.Email).1.ID) ∧
      E.CheckSession (Login E w r s).world.sessions r'
        = ((E.FindEmail s.db f.Email).1.ID, none) ∧
      ((E.Marshal (User.ofID (E.FindEmail s.db f.Email).1.ID)).2 = none →
        (CheckAuth E w' r' (Login E w r s).world).w = ((w'.WriteHeader StatusOK).Write
          (E.Marshal (User.ofID (E.FindEmail s.db f.Email).1.ID)).1).1)) := by
  constructor
  · intro form hr hok hstart
    obtain ⟨hcalls, hworld⟩ := Register_created_calls E w r s form hr hw hok
    have hchk := hstore s.sessions _ hstart
    rw [hcalls, hworld]
    refine ⟨?_, hchk, fun hm => CheckAuth_of_session E w' r' _ _ hchk hm⟩
    intro id
    simp only [List.mem_cons, List.mem_singleton, List.not_mem_nil, or_false, false_or,
      Call.StartSession.injEq, reduceCtorEq]
  · intro f hr hok
    obtain ⟨hstart, hcalls, hworld⟩ := Login_ok_calls E w r s f hr hw hok
    have hchk := hstore s.sessions _ hstart
    rw [homit] at hchk hcalls hworld
    rw [hcalls, hworld]
    refine ⟨?_, ?_, fun hm => CheckAuth_of_session E w' r' _ _ ?_ hm⟩
    · intro id
      simp only [List.mem_cons, List.mem_singleton, List.not_mem_nil, or_false, false_or,
        Call.StartSession.injEq, reduceCtorEq]
    · exact hchk
    · exact hchk

/-- Witness of C6 (amended): bob registers, and alice logs in, against the
in-memory instance; the follow-up request carries no body. -/
theorem session_bound_to_user_id_witness :
    ((∀ id, Call.StartSession id ∈ (Register mockEnv ResponseWriter.fresh
        (registerRequest ⟨0, "b@x.com", "bob", "p2", "p2"⟩) ⟨[alice], none⟩).calls ↔
      id = (mockEnv.AddUser [alice] ⟨0, "b@x.com", "bob", "p2", "p2"⟩).2.1.ID) ∧
    mockEnv.CheckSession (Register mockEnv ResponseWriter.fresh
        (registerRequest ⟨0, "b@x.com", "bob", "p2", "p2"⟩) ⟨[alice], none⟩).world.sessions
        plainRequest
      = ((mockEnv.AddUser [alice] ⟨0, "b@x.com", "bob", "p2", "p2"⟩).2.1.ID, none) ∧
    (CheckAuth mockEnv ResponseWriter.fresh plainRequest (Register mockEnv ResponseWriter.fresh
        (registerRequest ⟨0, "b@x.com", "bob", "p2", "p2"⟩) ⟨[alice], none⟩).world).w
      = ((ResponseWriter.fresh.WriteHeader StatusOK).Write (mockEnv.Marshal (User.ofID
          (mockEnv.AddUser [alice] ⟨0, "b@x.com", "bob", "p2", "p2"⟩).2.1.ID)).1).1) ∧
    ((∀ id, Call.StartSession id ∈ (Login mockEnv ResponseWriter.fresh
        (loginRequest "a@x.com" "p1") ⟨[alice], none⟩).calls ↔
      id = (mockEnv.FindEmail [alice] "a@x.com").1.ID) ∧
    mockEnv.CheckSession (Login mockEnv ResponseWriter.fresh
        (loginRequest "a@x.com" "p1") ⟨[alice], none⟩).world.sessions plainRequest
      = ((mockEnv.FindEmail [alice] "a@x.com").1.ID, none) ∧
    (CheckAuth mockEnv ResponseWriter.fresh plainRequest (Login mockEnv ResponseWriter.fresh
        (loginRequest "a@x.com" "p1") ⟨[alice], none⟩).world).w
      = ((ResponseWriter.fresh.WriteHeader StatusOK).Write (mockEnv.Marshal (User.ofID
          (mockEnv.FindEmail [alice] "a@x.com").1.ID)).1).1) :=
  have hreg := (session_bound_to_user_id mockEnv ResponseWriter.fresh ResponseWriter.fresh
    (registerRequest ⟨0, "b@x.com", "bob", "p2", "p2"⟩) plainRequest ⟨[alice], none⟩ rfl
    (fun _ => rfl) (fun _ _ _ => rfl)).1 ⟨0, "b@x.com", "bob", "p2", "p2"⟩ rfl (by decide) rfl
  have hlog := (session_bound_to_user_id mockEnv ResponseWriter.fresh ResponseWriter.fresh
    (loginRequest "a@x.com" "p1") plainRequest ⟨[alice], none⟩ rfl
    (fun _ => rfl) (fun _ _ _ => rfl)).2 ⟨"a@x.com", "p1"⟩ rfl (by decide)
  ⟨⟨hreg.1, hreg.2.1, hreg.2.2 rfl⟩, ⟨hlog.1, hlog.2.1, hlog.2.2 rfl⟩⟩

/-! ## What is written to the response -/

theorem WriteHeader_writes (w : ResponseWriter) (c : Nat) :
    (w.WriteHeader c).writes = w.writes := by
  unfold ResponseWriter.WriteHeader
  split <;> rfl

theorem Write_writes (w : ResponseWriter) (b : String) :
    (w.Write b).1.writes = w.writes ++ [b] := rfl

theorem httpError_writes (w : ResponseWriter) (msg : String) (c : Nat) :
    (httpError w msg c).writes = w.writes ++ [msg ++ "\n"] := by
  rw [httpError, Write_writes, WriteHeader_writes]

/-- C7: let OmitPassword clear the Password field, the field that holds the
password hash.  Then every chunk that GetBasicInfo, Register or Login adds to
the response is either the line of one of the four fixed messages or the
serialization of a user to which OmitPassword has been applied and whose
Password field is therefore empty: for GetBasicInfo the user found by id, for
Register the form as AddUser left it, for Login the user found by email.  No
path serializes a user before OmitPassword, and nothing restores the field
between OmitPassword and `json.Marshal`, so no response body of the three
handlers carries the password hash. -/
theorem user_serialized_after_OmitPassword {δ ς : Type} (E : Env δ ς)
    (w : ResponseWriter) (r : Request)
    (s : World δ ς) (homit : ∀ u, (E.OmitPassword u).Password = "") :
    (∀ c ∈ (GetBasicInfo E w r s).w.writes, c ∈ w.writes ∨ c ∈ fixedLines ∨
      ∃ u64, ParseUint (r.Vars "id") = some u64 ∧ (E.FindId s.db u64).2 = none ∧
        (E.OmitPassword (E.FindId s.db u64).1).Password = "" ∧
        c = (E.Marshal (E.OmitPassword (E.FindId s.db u64).1)).1) ∧
    (∀ c ∈ (Register E w r s).w.writes, c ∈ w.writes ∨ c ∈ fixedLines ∨
      ∃ form, r.userForm = some form ∧
        (E.OmitPassword (E.AddUser s.db form).2.1).Password = "" ∧
        c = (E.Marshal (E.OmitPassword (E.AddUser s.db form).2.1)).1) ∧
    (∀ c ∈ (Login E w r s).w.writes, c ∈ w.writes ∨ c ∈ fixedLines ∨
      ∃ f, r.loginForm = some f ∧ (E.FindEmail s.db f.Email).2 = none ∧
        (E.OmitPassword (E.FindEmail s.db f.Email).1).Password = "" ∧
        c = (E.Marshal (E.OmitPassword (E.FindEmail s.db f.Email).1)).1) := by
  refine ⟨?_, ?_, ?_⟩
  · intro c hc
    simp only [GetBasicInfo] at hc
    split at hc
    · simp only [httpError_writes, List.mem_append, List.mem_singleton] at hc
      rcases hc with h | h
      · exact Or.inl h
      · exact Or.inr (Or.inl (by simp [h, fixedLines]))
    · rename_i u64 hparse
      split at hc
      · simp only [httpError_writes, List.mem_append, List.mem_singleton] at hc
        rcases hc with h | h
        · exact Or.inl h
        · exact Or.inr (Or.inl (by simp [h, fixedLines]))
      · rename_i hfound
        split at hc
        · simp only [httpError_writes, List.mem_append, List.mem_singleton] at hc
          rcases hc with h | h
          · exact Or.inl h
          · exact Or.inr (Or.inl (by simp [h, fixedLines]))
        · split at hc
          · simp only [httpError_writes, Write_writes, WriteHeader_writes, List.mem_append,
              List.mem_singleton] at hc
            rcases hc with (h | h) | h
            · exact Or.inl h
            · exact Or.inr (Or.inr ⟨u64, hparse, hfound, homit _, h⟩)
            · exact Or.inr (Or.inl (by simp [h, fixedLines]))
          · simp only [Write_writes, WriteHeader_writes, List.mem_append,
              List.mem_singleton] at hc
            rcases hc with h | h
            · exact Or.inl h
            · exact Or.inr (Or.inr ⟨u64, hparse, hfound, homit _, h⟩)
  · intro c hc
    simp only [Register] at hc
    split at hc
    · simp only [httpError_writes, List.mem_append, List.mem_singleton] at hc
      rcases hc with h | h
      · exact Or.inl h
      · exact Or.inr (Or.inl (by simp [h, fixedLines]))
    · rename_i form hform
      split at hc
      · simp only [httpError_writes, List.mem_append, List.mem_singleton] at hc
        rcases hc with h | h
        · exact Or.inl h
        · exact Or.inr (Or.inl (by simp [h, fixedLines]))
      · split at hc
        · simp only [httpError_writes, List.mem_append, List.mem_singleton] at hc
          rcases hc with h | h
          · exact Or.inl h
          · exact Or.inr (Or.inl (by simp [h, fixedLines]))
        · split at hc
          · simp only [httpError_writes, List.mem_append, List.mem_singleton] at hc
            rcases hc with h | h
            · exact Or.inl h
            · exact Or.inr (Or.inl (by simp [h, fixedLines]))
          · split at hc
            · simp only [httpError_writes, List.mem_append, List.mem_singleton] at hc
              rcases hc with h | h
              · exact Or.inl h
              · exact Or.inr (Or.inl (by simp [h, fixedLines]))
            · split at hc
              · simp only [httpError_writes, List.mem_append, List.mem_singleton] at hc
                rcases hc with h | h
                · exact Or.inl h
                · exact Or.inr (Or.inl (by simp [h, fixedLines]))
              · simp only [Write_writes, WriteHeader_writes, List.mem_append,
                  List.mem_singleton] at hc
                rcases hc with h | h
                · exact Or.inl h
                · exact Or.inr (Or.inr ⟨form, hform, homit _, h⟩)
  · intro c hc
    simp only [Login] at hc
    split at hc
    · simp only [httpError_writes, List.mem_append, List.mem_singleton] at hc
      rcases hc with h | h
      · exact Or.inl h
      · exact Or.inr (Or.inl (by simp [h, fixedLines]))
    · rename_i f hf
      split at hc
      · simp only [httpError_writes, List.mem_append, List.mem_singleton] at hc
        rcases hc with h | h
        · exact Or.inl h
        · exact Or.inr (Or.inl (by simp [h, fixedLines]))
      · split at hc
        · simp only [httpError_writes, List.mem_append, List.mem_singleton] at hc
          rcases hc with h | h
          · exact Or.inl h
          · exact Or.inr (Or.inl (by simp [h, fixedLines]))
        · rename_i hcred
          have hfound : (E.FindEmail s.db f.Email).2 = none := by
            by_contra hne
            exact hcred (Or.inl hne)
          split at hc
          · simp only [httpError_writes, List.mem_append, List.mem_singleton] at hc
            rcases hc with h | h
            · exact Or.inl h
            · exact Or.inr (Or.inl (by simp [h, fixedLines]))
          · split at hc
            · simp only [httpError_writes, List.mem_append, List.mem_singleton] at hc
              rcases hc with h | h
              · exact Or.inl h
              · exact Or.inr (Or.inl (by simp [h, fixedLines]))
            · split at hc
              · simp only [httpError_writes, List.mem_append, List.mem_singleton] at hc
                rcases hc with h | h
                · exact Or.inl h
                · exact Or.inr (Or.inl (by simp [h, fixedLines]))
              · simp only [Write_writes, WriteHeader_writes, List.mem_append,
                  List.mem_singleton] at hc
                rcases hc with h | h
                · exact Or.inl h
                · exact Or.inr (Or.inr ⟨f, hf, hfound, homit _, h⟩)

/-- Witness of C7: the chunk GetBasicInfo writes for alice, the chunk Register
writes for bob and the chunk Login writes for alice, on the in-memory instance,
whose serialization ends with the Password field: the stored `hash:p1` and
`hash:p2` are absent. -/
theorem user_serialized_after_OmitPassword_witness :
    ((GetBasicInfo mockEnv ResponseWriter.fresh (idRequest "1") ⟨[alice], none⟩).w.writes
        = ["1;a@x.com;alice;"] ∧
      ("1;a@x.com;alice;" ∈ ResponseWriter.fresh.writes ∨ "1;a@x.com;alice;" ∈ fixedLines ∨
        ∃ u64, ParseUint ((idRequest "1").Vars "id") = some u64 ∧
          (mockEnv.FindId [alice] u64).2 = none ∧
          (mockEnv.OmitPassword (mockEnv.FindId [alice] u64).1).Password = "" ∧
          "1;a@x.com;alice;"
            = (mockEnv.Marshal (mockEnv.OmitPassword (mockEnv.FindId [alice] u64).1)).1)) ∧
    ((Register mockEnv ResponseWriter.fresh
          (registerRequest ⟨0, "b@x.com", "bob", "p2", "p2"⟩) ⟨[alice], none⟩).w.writes
        = ["2;b@x.com;bob;"] ∧
      ("2;b@x.com;bob;" ∈ ResponseWriter.fresh.writes ∨ "2;b@x.com;bob;" ∈ fixedLines ∨
        ∃ form, (registerRequest ⟨0, "b@x.com", "bob", "p2", "p2"⟩).userForm = some form ∧
          (mockEnv.OmitPassword (mockEnv.AddUser [alice] form).2.1).Password = "" ∧
          "2;b@x.com;bob;"
            = (mockEnv.Marshal (mockEnv.OmitPassword (mockEnv.AddUser [alice] form).2.1)).1)) ∧
    ((Login mockEnv ResponseWriter.fresh (loginRequest "a@x.com" "p1")
          ⟨[alice], none⟩).w.writes = ["1;a@x.com;alice;"] ∧
      ("1;a@x.com;alice;" ∈ ResponseWriter.fresh.writes ∨ "1;a@x.com;alice;" ∈ fixedLines ∨
        ∃ f, (loginRequest "a@x.com" "p1").loginForm = some f ∧
          (mockEnv.FindEmail [alice] f.Email).2 = none ∧
          (mockEnv.OmitPassword (mockEnv.FindEmail [alice] f.Email).1).Password = "" ∧
          "1;a@x.com;alice;"
            = (mockEnv.Marshal (mockEnv.OmitPassword (mockEnv.FindEmail [alice] f.Email).1)).1)) :=
  ⟨⟨by decide, (user_serialized_after_OmitPassword mockEnv ResponseWriter.fresh
      (idRequest "1") ⟨[alice], none⟩ (fun _ => rfl)).1 _ (by decide)⟩,
    ⟨by decide, (user_serialized_after_OmitPassword mockEnv ResponseWriter.fresh
      (registerRequest ⟨0, "b@x.com", "bob", "p2", "p2"⟩) ⟨[alice], none⟩
      (fun _ => rfl)).2.1 _ (by decide)⟩,
    ⟨by decide, (user_serialized_after_OmitPassword mockEnv ResponseWriter.fresh
      (loginRequest "a@x.com" "p1") ⟨[alice], none⟩ (fun _ => rfl)).2.2 _ (by decide)⟩⟩

/-! ## Logout -/

/-- C8, the code at the failing input: the session lookup fails with an error
that is not `ErrUserNotLoggedIn`, so it yields no valid session; Logout does
not answer 403 but calls EndSession with the returned id 0 and answers 200. -/
theorem Logout_lookup_failure_ends_session :
    lookupDownEnv.CheckSession (some 1) plainRequest = (0, some mockStoreDown) ∧
    mockStoreDown ≠ lookupDownEnv.ErrUserNotLoggedIn ∧
    (Logout lookupDownEnv ResponseWriter.fresh plainRequest ⟨[alice], some 1⟩).calls
      = [Call.CheckSession, Call.EndSession 0] ∧
    (Logout lookupDownEnv ResponseWriter.fresh plainRequest ⟨[alice], some 1⟩).w
      = ResponseWriter.fresh.WriteHeader StatusOK ∧
    (Logout lookupDownEnv ResponseWriter.fresh plainRequest ⟨[alice], some 1⟩).w
      ≠ httpError ResponseWriter.fresh errorBadInput StatusForbidden := by
  decide

/-! ## CheckAuth -/

/-- C9: when the session lookup reports `ErrUserNotLoggedIn`, CheckAuth answers
BadInput (400, `error - bad input`); when it fails with any other error the
answer has status 500 (its body is the text of that error); otherwise, the
payload being serializable, the answer is 200 and its body is the
serialization of the user record whose ID is the id the lookup returned and
whose Email, Username, Password and RepeatPassword are all empty.  In every
case the repository and the session store are unchanged and the only
collaborator call is the session lookup. -/
theorem CheckAuth_spec {δ ς : Type} (E : Env δ ς)
    (w : ResponseWriter) (r : Request) (s : World δ ς) :
    ((E.CheckSession s.sessions r).2 = some E.ErrUserNotLoggedIn →
      (CheckAuth E w r s).w = httpError w errorBadInput StatusBadRequest) ∧
    (∀ err, (E.CheckSession s.sessions r).2 = some err → err ≠ E.ErrUserNotLoggedIn →
      (CheckAuth E w r s).w = httpError w err.text StatusInternalServerError ∧
      (w.code = none → (CheckAuth E w r s).w.code = some StatusInternalServerError)) ∧
    (∀ id, E.CheckSession s.sessions r = (id, none) →
      (E.Marshal ⟨id, "", "", "", ""⟩).2 = none →
      (CheckAuth E w r s).w
        = ((w.WriteHeader StatusOK).Write (E.Marshal ⟨id, "", "", "", ""⟩).1).1 ∧
      (CheckAuth E w r s).w.writes = w.writes ++ [(E.Marshal ⟨id, "", "", "", ""⟩).1] ∧
      (w.code = none → (CheckAuth E w r s).w.code = some StatusOK)) ∧
    (CheckAuth E w r s).world = s ∧
    (CheckAuth E w r s).calls = [Call.CheckSession] := by
  refine ⟨?_, ?_, ?_, ?_, ?_⟩
  · intro h
    simp only [CheckAuth]
    rw [if_pos h]
  · intro err h hne
    have hne' : ¬ (E.CheckSession s.sessions r).2 = some E.ErrUserNotLoggedIn := by
      rw [h]; exact fun h' => hne (Option.some.inj h')
    simp only [CheckAuth]
    rw [if_neg hne']
    simp only [h]
    exact ⟨trivial, fun hw => httpError_code w _ _ hw⟩
  · intro id h hm
    have hw' : (CheckAuth E w r s).w
        = ((w.WriteHeader StatusOK).Write (E.Marshal ⟨id, "", "", "", ""⟩).1).1 := by
      simp only [CheckAuth, User.ofID, h]
      rw [if_neg (fun h' => Option.noConfusion h')]
      simp only [hm]
    refine ⟨hw', ?_, fun hw => ?_⟩
    · rw [hw', Write_writes, WriteHeader_writes]
    · rw [hw']; exact WriteHeader_Write_code w _ _ hw
  · simp only [CheckAuth]
    split
    · rfl
    · split
      · rfl
      · split <;> rfl
  · simp only [CheckAuth]
    split
    · rfl
    · split
      · rfl
      · split <;> rfl

/-- Witness of C9: no session; a lookup that fails otherwise; a session for
id 7, for which the in-memory serialization is `7;;;` (the id, then the empty
email, username and password). -/
theorem CheckAuth_spec_witness :
    (CheckAuth mockEnv ResponseWriter.fresh plainRequest ⟨[alice], none⟩).w
      = httpError ResponseWriter.fresh errorBadInput StatusBadRequest ∧
    ((CheckAuth lookupDownEnv ResponseWriter.fresh plainRequest ⟨[alice], none⟩).w
      = httpError ResponseWriter.fresh mockStoreDown.text StatusInternalServerError ∧
    (CheckAuth lookupDownEnv ResponseWriter.fresh plainRequest ⟨[alice], none⟩).w.code
      = some StatusInternalServerError) ∧
    ((mockEnv.Marshal ⟨7, "", "", "", ""⟩).1 = "7;;;" ∧
    (CheckAuth mockEnv ResponseWriter.fresh plainRequest ⟨[alice], some 7⟩).w
      = ((ResponseWriter.fresh.WriteHeader StatusOK).Write
          (mockEnv.Marshal ⟨7, "", "", "", ""⟩).1).1 ∧
    (CheckAuth mockEnv ResponseWriter.fresh plainRequest ⟨[alice], some 7⟩).w.writes
      = ResponseWriter.fresh.writes ++ [(mockEnv.Marshal ⟨7, "", "", "", ""⟩).1] ∧
    (CheckAuth mockEnv ResponseWriter.fresh plainRequest ⟨[alice], some 7⟩).w.code
      = some StatusOK) :=
  ⟨(CheckAuth_spec mockEnv ResponseWriter.fresh plainRequest ⟨[alice], none⟩).1 rfl,
    ((CheckAuth_spec lookupDownEnv ResponseWriter.fresh plainRequest ⟨[alice], none⟩).2.1
      mockStoreDown rfl (by decide)).imp_right (fun h => h rfl),
    by decide,
    ((CheckAuth_spec mockEnv ResponseWriter.fresh plainRequest ⟨[alice], some 7⟩).2.2.1
      7 rfl rfl).imp_right (fun h => h.imp_right (fun h' => h' rfl))⟩

/-! ## Error text in responses -/

/-- C10, the code at the failing input: when the session lookup of CheckAuth
fails with an error other than `ErrUserNotLoggedIn`, the body of the 500
response is the text of that error, not the fixed message, so two different
store errors give two different bodies; and Login with valid credentials
reports the same lookup failure as 400 `error - already in`. -/
theorem CheckAuth_body_is_error_text :
    (CheckAuth lookupDownEnv ResponseWriter.fresh plainRequest ⟨[alice], none⟩).w.code
      = some StatusInternalServerError ∧
    (CheckAuth lookupDownEnv ResponseWriter.fresh plainRequest ⟨[alice], none⟩).w.body
      = "dial tcp 127.0.0.1:6379: connect: connection refused\n" ∧
    (CheckAuth lookupTimeoutEnv ResponseWriter.fresh plainRequest ⟨[alice], none⟩).w.body
      = "redis: connection pool timeout\n" ∧
    (CheckAuth lookupDownEnv ResponseWriter.fresh plainRequest ⟨[alice], none⟩).w
      ≠ httpError ResponseWriter.fresh errorInternalServer StatusInternalServerError ∧
    (Login lookupDownEnv ResponseWriter.fresh (loginRequest "a@x.com" "p1") ⟨[alice], none⟩).w
      = httpError ResponseWriter.fresh errorAlreadyIn StatusBadRequest := by
  decide

end Authorization
